import Mathlib

/-!
Verification development for the RAG-based-SE repository.

Shallow embedding of the three core modules the claims concern:
  * `src/backend/src/ingestion/text_chunker.py`  (TextChunker)
  * `src/backend/src/retrieval/rag_pipeline.py`  (RAGPipeline)
  * `src/backend/src/retrieval/vector_store.py`  (VectorStore.add_chunks)

Modelling conventions:
  * Python strings are Lean `String`s; the Python string operations used by
    the code (`split`, `strip`, `replace`, slicing) are re-implemented over
    the underlying character list with structural (fuel-based) recursion so
    that concrete evaluations reduce in the kernel.  `strip` is modelled
    with `Char.isWhitespace` (ASCII whitespace), which agrees with Python on
    every character the repository's code paths produce.
  * Python dicts are association lists `List (String × MVal)`; a dict
    literal `{**m, k: v}` prepends the overriding pairs and `pyGet` takes
    the first match, which reproduces Python's lookup semantics.
  * Python floats are modelled as exact rationals `ℚ`.
  * Fallible Python code (a `raise` escaping a function) is modelled with
    `Except String`.
  * Wall-clock fields of `RAGResult` (`retrieval_time_ms`,
    `generation_time_ms`, `total_time_ms`) are environment-dependent
    real-time measurements and are not part of the embedding.
-/

namespace RAGSE

/-- A Python scalar value as it occurs in the repository's metadata dicts. -/
inductive MVal where
  | str (s : String)
  | nat (n : Nat)
deriving DecidableEq, Repr

/-- A Python dict, as an association list; earlier entries shadow later ones. -/
abbrev PyDict := List (String × MVal)

/-- Python `d.get(k)`: first binding of `k`, if any. -/
def pyGet (d : PyDict) (k : String) : Option MVal :=
  (d.find? (fun p => p.1 == k)).map (fun p => p.2)

/-- Python `str(v)` for the two value shapes the code stores. -/
def mvalStr : MVal → String
  | .str s => s
  | .nat n => toString n

/-! ### Python string primitives (over the character list, fuel-recursive) -/

/-- Python `s.strip()`: drop leading and trailing whitespace characters. -/
def pyStrip (s : String) : String :=
  ⟨((s.data.dropWhile Char.isWhitespace).reverse.dropWhile Char.isWhitespace).reverse⟩

/-- Python `s[:k]` (character slicing). -/
def pyTake (s : String) (k : Nat) : String := ⟨s.data.take k⟩

/-- Python `s[-k:]` for `k > 0`; Python's `s[-0:]` is the whole string. -/
def pyTakeRight (s : String) (k : Nat) : String :=
  if k = 0 then s else ⟨s.data.drop (s.data.length - k)⟩

/-- Helper for `pySplit`: split `l` on occurrences of the non-empty
separator `sep`, with `acc` the reversed current piece and `fuel` at least
the length of `l`. -/
def splitListAux (sep : List Char) : Nat → List Char → List Char → List (List Char)
  | _, acc, [] => [acc.reverse]
  | 0, acc, l => [acc.reverse ++ l]
  | fuel + 1, acc, c :: rest =>
    if sep.isPrefixOf (c :: rest) then
      acc.reverse :: splitListAux sep fuel [] (rest.drop (sep.length - 1))
    else
      splitListAux sep fuel (c :: acc) rest

/-- Python `s.split(sep)` for a non-empty separator. -/
def pySplit (s : String) (sep : String) : List String :=
  (splitListAux sep.data s.data.length [] s.data).map (fun l => ⟨l⟩)

/-- Helper for `pyReplace`, fuelled like `splitListAux`. -/
def replaceListAux (old new : List Char) : Nat → List Char → List Char
  | _, [] => []
  | 0, l => l
  | fuel + 1, c :: rest =>
    if old.isPrefixOf (c :: rest) then
      new ++ replaceListAux old new fuel (rest.drop (old.length - 1))
    else
      c :: replaceListAux old new fuel rest

/-- Python `s.replace(old, new)` for a non-empty `old`. -/
def pyReplace (s old new : String) : String :=
  ⟨replaceListAux old.data new.data s.data.length s.data⟩

/-! ### `text_chunker.py` -/

/-- `Chunk` dataclass (text, metadata, chunk_index). -/
structure Chunk where
  text : String
  metadata : PyDict
  chunk_index : Nat
deriving DecidableEq, Repr

/-- `Document` dataclass from `document_loader.py` (content, metadata, source). -/
structure Document where
  content : String
  metadata : PyDict
  source : String

/-- `TextChunker.__init__` state.  Python defaults: `chunk_size = 512`,
`chunk_overlap = 50`, `separator = "\n\n"`. -/
structure TextChunker where
  chunk_size : Nat
  chunk_overlap : Nat
  separator : String

/-- The chunker with the Python default arguments. -/
def defaultChunker : TextChunker := ⟨512, 50, "\n\n"⟩

/-- `self.chunk_size_chars = chunk_size * 4`. -/
def TextChunker.chunk_size_chars (tc : TextChunker) : Nat := tc.chunk_size * 4

/-- `self.chunk_overlap_chars = chunk_overlap * 4`. -/
def TextChunker.chunk_overlap_chars (tc : TextChunker) : Nat := tc.chunk_overlap * 4

/-- One of `.`, `!`, `?` — the sentence-boundary class of `_get_overlap`. -/
def isSentencePunct (c : Char) : Bool := c == '.' || c == '!' || c == '?'

/-- Helper: `re.split(r'[.!?]\s+', l)` — split at each punctuation character
followed by a maximal non-empty whitespace run, the match being removed. -/
def sentSplitAux : Nat → List Char → List Char → List (List Char)
  | _, acc, [] => [acc.reverse]
  | 0, acc, l => [acc.reverse ++ l]
  | fuel + 1, acc, c :: rest =>
    if isSentencePunct c && (rest.head?.map Char.isWhitespace).getD false then
      acc.reverse :: sentSplitAux fuel [] (rest.dropWhile Char.isWhitespace)
    else
      sentSplitAux fuel (c :: acc) rest

/-- `re.split(r'[.!?]\s+', s)` as used by `_get_overlap`. -/
def sentSplit (s : String) : List String :=
  (sentSplitAux s.data.length [] s.data).map (fun l => ⟨l⟩)

/-- `TextChunker._get_overlap(self, text)` — note the single parameter: the
trailing `chunk_overlap_chars` characters of `text`, cut back to the last
sentence boundary when one occurs inside the slice. -/
def TextChunker.get_overlap (tc : TextChunker) (text : String) : String :=
  if text.length ≤ tc.chunk_overlap_chars then text
  else
    let overlap := pyTakeRight text tc.chunk_overlap_chars
    let sentences := sentSplit overlap
    if sentences.length > 1 then sentences.getLastD "" else overlap

/-- `TextChunker._create_chunk(self, text, metadata, index)`: metadata is
`{**metadata, 'chunk_index': index, 'chunk_size': len(text)}` (length of the
unstripped text) and the chunk's text is `text.strip()`. -/
def TextChunker._create_chunk (tc : TextChunker) (text : String) (metadata : PyDict)
    (index : Nat) : Chunk :=
  { text := pyStrip text
    metadata := ("chunk_index", .nat index) :: ("chunk_size", .nat text.length) :: metadata
    chunk_index := index }

/-- The `for section in sections` loop of `TextChunker.chunk_text`.  State:
remaining sections, `current_chunk`, `chunk_index`, accumulated `chunks`.
The size-based split branch (line 56) executes
`self._get_overlap(section, current_chunk)` (line 60): `_get_overlap` takes
one argument besides `self`, so Python raises
`TypeError: _get_overlap() takes 2 positional arguments but 3 were given`,
which escapes `chunk_text`; the branch is therefore an error state. -/
def chunkTextLoop (tc : TextChunker) (metadata : PyDict) :
    List String → String → Nat → List Chunk → Except String (List Chunk)
  | [], current, idx, acc =>
    if current ≠ "" then .ok (acc ++ [tc._create_chunk current metadata idx]) else .ok acc
  | s :: rest, current, idx, acc =>
    if pyStrip s = "" then
      chunkTextLoop tc metadata rest current idx acc
    else if current.length + (pyStrip s).length > tc.chunk_size_chars ∧ current ≠ "" then
      .error "TypeError"
    else if current ≠ "" then
      chunkTextLoop tc metadata rest (current ++ tc.separator ++ pyStrip s) idx acc
    else
      chunkTextLoop tc metadata rest (pyStrip s) idx acc

/-- `TextChunker.chunk_text(self, text, metadata)`.  Python's
`str.split` raises `ValueError` on an empty separator, modelled as an
error; with the repository's separators this branch is never taken. -/
def TextChunker.chunk_text (tc : TextChunker) (text : String) (metadata : PyDict) :
    Except String (List Chunk) :=
  if tc.separator = "" then .error "ValueError"
  else chunkTextLoop tc metadata (pySplit text tc.separator) "" 0 []

/-- The `for doc in documents` loop of `chunk_documents`. -/
def chunkDocsLoop (tc : TextChunker) : List Document → List Chunk → Except String (List Chunk)
  | [], acc => .ok acc
  | d :: rest, acc =>
    match tc.chunk_text d.content d.metadata with
    | .error e => .error e
    | .ok cs => chunkDocsLoop tc rest (acc ++ cs)

/-- `TextChunker.chunk_documents(self, documents)`. -/
def TextChunker.chunk_documents (tc : TextChunker) (docs : List Document) :
    Except String (List Chunk) :=
  chunkDocsLoop tc docs []

/-! ### `rag_pipeline.py` -/

/-- The apostrophe character, U+0027. -/
def apos : Char := Char.ofNat 39

/-- The LLM collaborator: `llm_client.chat.completions.create` with the two
prompt contents, returning the stripped-to-be message content or failing
with any exception (`Except.error`). -/
abbrev LLMClient := String → String → Except String String

/-- One element of `RAGResult.sources` as built in `RAGPipeline.query`. -/
structure SourceEntry where
  text : String
  title : MVal
  source : MVal
  chunk_index : MVal
  distance : ℚ
  similarity : ℚ
deriving DecidableEq

/-- The dict returned by `VectorStore.search_by_text` (the three parallel
lists `query` iterates over; `ids` is unused by the pipeline). -/
structure SearchResults where
  documents : List String
  metadatas : List PyDict
  distances : List ℚ

/-- `RAGResult` dataclass, without the wall-clock timing fields (see the
module comment). -/
structure RAGResult where
  query : String
  answer : String
  sources : List SourceEntry
deriving DecidableEq

/-- `RAGPipeline` state relevant to the claims: `use_llm` and `llm_client`
(the vector store and embedder collaborators are passed to `query` as a
retrieval oracle). -/
structure RAGPipeline where
  use_llm : Bool
  llm_client : Option LLMClient

/-- `RAGPipeline.__init__`: raises `ValueError` iff `use_llm` is true and
`llm_client` is `None`. -/
def RAGPipeline.init (use_llm : Bool) (llm_client : Option LLMClient) :
    Except String RAGPipeline :=
  if use_llm && llm_client.isNone then
    .error "llm_client is required when use_llm is True"
  else
    .ok ⟨use_llm, llm_client⟩

/-- `similarity = 1 - (distance / 2)` (line 61 of `rag_pipeline.py`). -/
def similarity (distance : ℚ) : ℚ := 1 - distance / 2

/-- The sources entry appended for one candidate `(doc, metadata, distance)`. -/
def mkEntry (doc : String) (metadata : PyDict) (distance : ℚ) : SourceEntry :=
  { text := doc
    title := (pyGet metadata "title").getD (.str "Unknown")
    source := (pyGet metadata "source").getD (.str "Unknown")
    chunk_index := (pyGet metadata "chunk_index").getD (.nat 0)
    distance := distance
    similarity := similarity distance }

/-- `zip(results['documents'], results['metadatas'], results['distances'])`:
Python `zip` truncates to the shortest list, as does `List.zip`. -/
def zip3 (res : SearchResults) : List (String × PyDict × ℚ) :=
  res.documents.zip (res.metadatas.zip res.distances)

/-- One iteration of the candidate-filtering loop: keep the candidate iff
`similarity >= similarity_threshold or len(sources) == 0`. -/
def selectStep (threshold : ℚ) (st : List SourceEntry × List String)
    (t : String × PyDict × ℚ) : List SourceEntry × List String :=
  if similarity t.2.2 ≥ threshold ∨ st.1.length = 0 then
    (st.1 ++ [mkEntry t.1 t.2.1 t.2.2], st.2 ++ [t.1])
  else st

/-- The whole filtering loop: `(sources, context_chunks)`. -/
def selectSources (threshold : ℚ) (res : SearchResults) :
    List SourceEntry × List String :=
  (zip3 res).foldl (selectStep threshold) ([], [])

/-- The fixed prefix of every non-empty extractive answer. -/
def answerPreamble : String :=
  "Based on the documentation, here" ++ String.singleton apos ++ "s what I found: \n\n"

/-- `RAGPipeline._generate_answer_without_llm(self, query, context_chunks)`. -/
def _generate_answer_without_llm (query : String) (context_chunks : List String) :
    String :=
  match context_chunks with
  | [] => "No relevant information found in the documents."
  | [c0] => answerPreamble ++ c0
  | c0 :: c1 :: _ =>
    answerPreamble ++ c0 ++ "\n\n---\n\nAdditional relevant information:\n\n" ++
      pyTake c1 300 ++ "..."

/-- The system prompt of `_generate_answer_with_llm` (triple-quoted literal,
whitespace included). -/
def sysPrompt : String :=
  "\n        You are a helpful assistant that answers questions about engineering documentation.\n        Use the provided context to answer the question accurately and concisely.\n        If the context doesn" ++ String.singleton apos ++
  "t contain enough information, say so.\n        Always cite which parts of the context you used.\n        "

/-- The user prompt of `_generate_answer_with_llm` (f-string, whitespace
included). -/
def userPrompt (context query : String) : String :=
  "Context: \n        " ++ context ++ "\n        Question: " ++ query ++
  "\n\n        Answer:\n        "

/-- `RAGPipeline._generate_answer_with_llm(self, query, context_chunks)`:
with no context, a fixed message; otherwise call the LLM collaborator and on
any exception (including `llm_client` being `None`) fall back to
`_generate_answer_without_llm`. -/
def _generate_answer_with_llm (llm_client : Option LLMClient) (query : String)
    (context_chunks : List String) : String :=
  match context_chunks with
  | [] => "No relevant info available, retrieving answer from training data"
  | _ =>
    match
      (match llm_client with
       | none => Except.error "AttributeError"
       | some llm =>
         llm sysPrompt (userPrompt (String.intercalate "\n\n---\n\n" context_chunks) query))
    with
    | .ok response => pyStrip response
    | .error _ => _generate_answer_without_llm query context_chunks

/-- `RAGPipeline.query(self, query_text, top_k, similarity_threshold)`.
`retrieve` stands for the collaborator composition
`self.vector_store.search_by_text(query_text, self.embedder, top_k)`.
Python defaults: `top_k = 5`, `similarity_threshold = 0.7`. -/
def RAGPipeline.query (p : RAGPipeline) (retrieve : String → Nat → SearchResults)
    (query_text : String) (top_k : Nat) (similarity_threshold : ℚ) : RAGResult :=
  { query := query_text
    answer :=
      if p.use_llm then
        _generate_answer_with_llm p.llm_client query_text
          (selectSources similarity_threshold (retrieve query_text top_k)).2
      else
        _generate_answer_without_llm query_text
          (selectSources similarity_threshold (retrieve query_text top_k)).2
    sources := (selectSources similarity_threshold (retrieve query_text top_k)).1 }

/-- `RAGPipeline.batch_query(self, queries, top_k)`: the loop
`results.append(self.query(query, top_k = top_k))`, the similarity
threshold taking its default value `0.7`. -/
def RAGPipeline.batch_query (p : RAGPipeline) (retrieve : String → Nat → SearchResults)
    (queries : List String) (top_k : Nat) : List RAGResult :=
  queries.foldl (fun acc q => acc ++ [p.query retrieve q top_k (7 / 10)]) []

/-! ### `vector_store.py` -/

/-- One record as submitted to `collection.add` (parallel entries of `ids`,
`documents`, `metadatas`, `embeddings_list`). -/
structure VSRecord where
  id : String
  document : String
  metadata : PyDict
  embedding : List ℚ
deriving DecidableEq

/-- The id built for chunk `chunk` at enumeration position `i`:
`f"{chunk.metadata.get('title', 'Unknown')}_{chunk.chunk_index}_{i}"` with
spaces and slashes replaced by underscores. -/
def chunkId (chunk : Chunk) (i : Nat) : String :=
  pyReplace
    (pyReplace
      (mvalStr ((pyGet chunk.metadata "title").getD (.str "Unknown")) ++ "_" ++
        toString chunk.chunk_index ++ "_" ++ toString i)
      " " "_")
    "/" "_"

/-- The per-record metadata dict built in `add_chunks`. -/
def recordMeta (chunk : Chunk) : PyDict :=
  [("title", .str (mvalStr ((pyGet chunk.metadata "title").getD (.str "Unknown")))),
   ("source", .str (mvalStr ((pyGet chunk.metadata "source").getD (.str "Unknown")))),
   ("chunk_index", .nat chunk.chunk_index),
   ("chunk_size", .nat chunk.text.length)]

/-- The record for enumeration position `i`, chunk `c`, embedding `e`. -/
def mkRecord (i : Nat) (c : Chunk) (e : List ℚ) : VSRecord :=
  { id := chunkId c i, document := c.text, metadata := recordMeta c, embedding := e }

/-- Helper for `batched`: fuel-recursive splitting into slices of `n`. -/
def batchedAux (n : Nat) : Nat → List α → List (List α)
  | _, [] => []
  | 0, l => [l]
  | fuel + 1, x :: xs => (x :: xs.take (n - 1)) :: batchedAux n fuel (xs.drop (n - 1))

/-- The batching loop `for i in range(0, len(ids), batch_size)`: consecutive
slices `l[i : i + n]`. -/
def batched (n : Nat) (l : List α) : List (List α) := batchedAux n l.length l

/-- `VectorStore.add_chunks(self, chunks, embeddings)`: raises `ValueError`
on a length mismatch, otherwise submits one record per pair to
`collection.add` in batches of `batch_size = 100`; the result is the list of
submitted batches in submission order. -/
def add_chunks (chunks : List Chunk) (embeddings : List (List ℚ)) :
    Except String (List (List VSRecord)) :=
  if chunks.length ≠ embeddings.length then
    .error "Number of chunks and embeddings must match"
  else
    .ok (batched 100 ((chunks.zip embeddings).enum.map
      (fun p => mkRecord p.1 p.2.1 p.2.2)))

/-! ### Concrete collaborator fixtures used in evaluations -/

/-- An LLM collaborator stub that fails on every call. -/
def failLLM : LLMClient := fun _ _ => .error "fail"

/-- A retrieval oracle returning zero candidates. -/
def rEmpty : String → Nat → SearchResults := fun _ _ => ⟨[], [], []⟩

/-- A retrieval oracle returning one candidate `"A"` at distance `2`
(similarity `0`). -/
def rOne : String → Nat → SearchResults := fun _ _ => ⟨["A"], [[]], [2]⟩

/-! ### Helper lemmas -/

lemma selectStep_keep (θ : ℚ) (st : List SourceEntry × List String)
    (t : String × PyDict × ℚ) (h : similarity t.2.2 ≥ θ ∨ st.1.length = 0) :
    selectStep θ st t = (st.1 ++ [mkEntry t.1 t.2.1 t.2.2], st.2 ++ [t.1]) := by
  unfold selectStep
  exact if_pos h

lemma selectStep_skip (θ : ℚ) (st : List SourceEntry × List String)
    (t : String × PyDict × ℚ) (h1 : similarity t.2.2 < θ) (h2 : st.1 ≠ []) :
    selectStep θ st t = st := by
  unfold selectStep
  rw [if_neg]
  rintro (h | h)
  · exact absurd h (not_le.mpr h1)
  · exact h2 (List.length_eq_zero.mp h)

lemma foldl_selectStep_skip (θ : ℚ) :
    ∀ (l : List (String × PyDict × ℚ)) (st : List SourceEntry × List String),
      st.1 ≠ [] → (∀ t ∈ l, similarity t.2.2 < θ) →
      l.foldl (selectStep θ) st = st := by
  intro l
  induction l with
  | nil => intro st _ _; rfl
  | cons t rest ih =>
    intro st hne hall
    rw [List.foldl_cons, selectStep_skip θ st t (hall t (List.mem_cons_self t rest)) hne]
    exact ih st hne (fun u hu => hall u (List.mem_cons_of_mem t hu))

lemma foldl_selectStep_sim (θ : ℚ) :
    ∀ (l : List (String × PyDict × ℚ)) (st : List SourceEntry × List String),
      (∀ e ∈ st.1, e.similarity = 1 - e.distance / 2) →
      ∀ e ∈ (l.foldl (selectStep θ) st).1, e.similarity = 1 - e.distance / 2 := by
  intro l
  induction l with
  | nil => intro st h; exact h
  | cons t rest ih =>
    intro st h
    rw [List.foldl_cons]
    apply ih
    unfold selectStep
    split
    · intro e he
      rcases List.mem_append.mp he with h1 | h1
      · exact h e h1
      · rw [List.mem_singleton.mp h1]
        rfl
    · exact h

lemma chunkTextLoop_ok (tc : TextChunker) (md : PyDict) :
    ∀ (sections : List String) (current : String) (idx : Nat) (acc : List Chunk)
      (r : List Chunk),
      chunkTextLoop tc md sections current idx acc = .ok r →
      r = acc ∨ ∃ s, r = acc ++ [tc._create_chunk s md idx] := by
  intro sections
  induction sections with
  | nil =>
    intro current idx acc r h
    rw [chunkTextLoop] at h
    split at h
    · exact Or.inr ⟨current, (Except.ok.injEq _ _).mp h |>.symm⟩
    · exact Or.inl ((Except.ok.injEq _ _).mp h).symm
  | cons s rest ih =>
    intro current idx acc r h
    rw [chunkTextLoop] at h
    split at h
    · exact ih current idx acc r h
    · split at h
      · exact absurd h (by simp)
      · split at h
        · exact ih _ idx acc r h
        · exact ih _ idx acc r h

lemma chunk_text_ok_cases (tc : TextChunker) (text : String) (md : PyDict)
    (cs : List Chunk) (h : tc.chunk_text text md = .ok cs) :
    cs = [] ∨ ∃ s, cs = [tc._create_chunk s md 0] := by
  rw [TextChunker.chunk_text] at h
  split at h
  · exact absurd h (by simp)
  · have := chunkTextLoop_ok tc md (pySplit text tc.separator) "" 0 [] cs h
    simpa using this

lemma chunkDocsLoop_len (tc : TextChunker) :
    ∀ (docs : List Document) (acc : List Chunk) (r : List Chunk),
      chunkDocsLoop tc docs acc = .ok r → r.length ≤ acc.length + docs.length := by
  intro docs
  induction docs with
  | nil =>
    intro acc r h
    rw [chunkDocsLoop] at h
    simp [(Except.ok.injEq _ _).mp h]
  | cons d rest ih =>
    intro acc r h
    rw [chunkDocsLoop] at h
    split at h
    · exact absurd h (by simp)
    · rename_i cs heq
      have hlen : cs.length ≤ 1 := by
        rcases chunk_text_ok_cases tc d.content d.metadata cs heq with h1 | ⟨s, h1⟩ <;>
          simp [h1]
      have := ih (acc ++ cs) r h
      simp only [List.length_append, List.length_cons] at *
      omega

lemma foldl_append_map (f : α → β) :
    ∀ (l : List α) (acc : List β),
      l.foldl (fun a x => a ++ [f x]) acc = acc ++ l.map f := by
  intro l
  induction l with
  | nil => intro acc; simp
  | cons x xs ih => intro acc; rw [List.foldl_cons, ih]; simp

lemma batchedAux_join (n : Nat) :
    ∀ (fuel : Nat) (l : List α), l.length ≤ fuel →
      (batchedAux n fuel l).flatten = l := by
  intro fuel
  induction fuel with
  | zero =>
    intro l hl
    rw [List.length_eq_zero.mp (Nat.le_zero.mp hl)]
    rfl
  | succ fuel ih =>
    intro l hl
    match l with
    | [] => rfl
    | x :: xs =>
      rw [batchedAux, List.flatten_cons]
      have : (xs.drop (n - 1)).length ≤ fuel := by
        rw [List.length_drop]
        simp only [List.length_cons] at hl
        omega
      rw [ih _ this, List.cons_append, List.take_append_drop]

lemma batchedAux_mem_len (n : Nat) (hn : 1 ≤ n) :
    ∀ (fuel : Nat) (l : List α), l.length ≤ fuel →
      ∀ b ∈ batchedAux n fuel l, b.length ≤ n := by
  intro fuel
  induction fuel with
  | zero =>
    intro l hl b hb
    rw [List.length_eq_zero.mp (Nat.le_zero.mp hl)] at hb
    exact absurd hb (by simp [batchedAux])
  | succ fuel ih =>
    intro l hl b hb
    match l with
    | [] => exact absurd hb (by simp [batchedAux])
    | x :: xs =>
      rw [batchedAux] at hb
      rcases List.mem_cons.mp hb with h | h
      · rw [h]
        simp only [List.length_cons]
        have := List.length_take_le (n - 1) xs
        omega
      · refine ih (xs.drop (n - 1)) ?_ b h
        rw [List.length_drop]
        simp only [List.length_cons] at hl
        omega

lemma batched_flatten (n : Nat) (l : List α) : (batched n l).flatten = l :=
  batchedAux_join n l.length l le_rfl

lemma batched_mem_len (n : Nat) (hn : 1 ≤ n) (l : List α) :
    ∀ b ∈ batched n l, b.length ≤ n :=
  fun b hb => batchedAux_mem_len n hn l.length l le_rfl b hb

lemma selectSources_one_below :
    selectSources 1 (⟨["A"], [[]], [2]⟩ : SearchResults) = ([mkEntry "A" [] 2], ["A"]) := by
  show List.foldl (selectStep 1) ([], []) [("A", ([], 2))] = _
  rw [List.foldl_cons, selectStep_keep 1 ([], []) ("A", ([], 2)) (Or.inr rfl)]
  rfl

lemma query_rOne_sources :
    ((⟨false, none⟩ : RAGPipeline).query rOne "q" 5 1).sources = [mkEntry "A" [] 2] := by
  show (selectSources 1 (rOne "q" 5)).1 = _
  rw [show rOne "q" 5 = (⟨["A"], [[]], [2]⟩ : SearchResults) from rfl, selectSources_one_below]

lemma mem_query_rOne :
    mkEntry "A" [] 2 ∈ ((⟨false, none⟩ : RAGPipeline).query rOne "q" 5 1).sources := by
  rw [query_rOne_sources]
  exact List.mem_singleton.mpr rfl

lemma ctx_rOne_ne : (selectSources 1 (rOne "q" 5)).2 ≠ [] := by
  rw [show rOne "q" 5 = (⟨["A"], [[]], [2]⟩ : SearchResults) from rfl, selectSources_one_below]
  simp

lemma sim_two_below_one : ∀ t ∈ [(2 : ℚ)], similarity t < 1 := by
  intro t ht
  rw [List.mem_singleton] at ht
  subst ht
  norm_num [similarity]

lemma sorted_two : List.Sorted (· ≤ ·) [(2 : ℚ)] := List.sorted_singleton 2

lemma failLLM_fails : ∀ s u, ∃ e, failLLM s u = .error e := fun _ _ => ⟨"fail", rfl⟩

lemma with_llm_error (llm : LLMClient) (q c0 : String) (rest : List String) (e : String)
    (he : llm sysPrompt (userPrompt (String.intercalate "\n\n---\n\n" (c0 :: rest)) q) =
      .error e) :
    _generate_answer_with_llm (some llm) q (c0 :: rest) =
      _generate_answer_without_llm q (c0 :: rest) := by
  unfold _generate_answer_with_llm
  simp only [he]

/-- The expected single chunk of `defaultChunker.chunk_text "hi" []`. -/
def hiChunk : Chunk := ⟨"hi", [("chunk_index", .nat 0), ("chunk_size", .nat 2)], 0⟩

/-! ### Claims -/

/-- C1: the claim says the size-based split path of `chunk_text` closes the
buffer and seeds the next one with an overlap fragment, returning several
overlapping chunks.  The code cannot do this: line 60 calls `_get_overlap`
with two arguments against its one-parameter definition, so the first time
the split condition holds Python raises `TypeError` and `chunk_text` never
returns.  Evaluated at `TextChunker(chunk_size = 1, chunk_overlap = 1)` on
`"aaaaa\n\nbbb"`, whose second section overflows the buffer. -/
theorem chunk_text_split_raises_typeerror :
    (⟨1, 1, "\n\n"⟩ : TextChunker).chunk_text "aaaaa\n\nbbb" [] = .error "TypeError" := rfl

/-- C2: whenever `chunk_text` returns normally the returned list has at most
one chunk (a second chunk would require the size-split branch, which raises
the arity `TypeError`), and `chunk_documents`, when it returns normally,
yields at most one chunk per input document. -/
theorem chunk_text_at_most_one_chunk :
    (∀ (tc : TextChunker) (text : String) (md : PyDict) (cs : List Chunk),
      tc.chunk_text text md = .ok cs → cs.length ≤ 1)
    ∧ (∀ (tc : TextChunker) (docs : List Document) (cs : List Chunk),
      tc.chunk_documents docs = .ok cs → cs.length ≤ docs.length) := by
  constructor
  · intro tc text md cs h
    rcases chunk_text_ok_cases tc text md cs h with h1 | ⟨s, h1⟩ <;> simp [h1]
  · intro tc docs cs h
    simpa using chunkDocsLoop_len tc docs [] cs h

theorem chunk_text_at_most_one_chunk_check : ([hiChunk] : List Chunk).length ≤ 1 :=
  chunk_text_at_most_one_chunk.1 defaultChunker "hi" [] [hiChunk] rfl

/-- C6: for every text and metadata on which `chunk_text` returns normally,
the `chunk_index` fields of the returned chunks, in list order, are exactly
`0, 1, 2, …` with no gaps or duplicates, and the `chunk_index` metadata
entry of each chunk agrees with its `chunk_index` field. -/
theorem chunk_indices_sequential :
    ∀ (tc : TextChunker) (text : String) (md : PyDict) (cs : List Chunk),
      tc.chunk_text text md = .ok cs →
      cs.map (fun c => c.chunk_index) = List.range cs.length
      ∧ ∀ c ∈ cs, pyGet c.metadata "chunk_index" = some (.nat c.chunk_index) := by
  intro tc text md cs h
  rcases chunk_text_ok_cases tc text md cs h with h1 | ⟨s, h1⟩ <;> subst h1
  · exact ⟨rfl, fun c hc => absurd hc (List.not_mem_nil c)⟩
  · refine ⟨rfl, fun c hc => ?_⟩
    rw [List.mem_singleton.mp hc]
    rfl

theorem chunk_indices_sequential_check :
    ([hiChunk].map (fun c => c.chunk_index) = List.range [hiChunk].length)
    ∧ ∀ c ∈ [hiChunk], pyGet c.metadata "chunk_index" = some (.nat c.chunk_index) :=
  chunk_indices_sequential defaultChunker "hi" [] [hiChunk] rfl

/-- C3 counterexample: at a concrete `query` call with LLM mode enabled and
zero retrieved candidates, `sources` is empty but the answer is the
training-data message, not the extractive fallback message the claim asserts
for every call with zero candidates. -/
theorem query_zero_candidates_llm_not_extractive :
    ((⟨true, some failLLM⟩ : RAGPipeline).query rEmpty "q" 5 (7 / 10)).sources = []
    ∧ ((⟨true, some failLLM⟩ : RAGPipeline).query rEmpty "q" 5 (7 / 10)).answer ≠
      "No relevant information found in the documents." :=
  ⟨rfl, by decide⟩

/-- C3 (amended): when retrieval returns a non-empty candidate list ordered
ascending by distance and every candidate's similarity is strictly below the
threshold, `sources` is exactly the first (lowest-distance) candidate; when
retrieval returns zero candidates, `sources` is empty and, with LLM mode
disabled, the answer is the extractive fallback no-information message (with
LLM mode enabled a distinct training-data message is returned instead). -/
theorem query_below_threshold_single_source :
    (∀ (p : RAGPipeline) (retrieve : String → Nat → SearchResults) (q : String)
        (k : Nat) (θ : ℚ) (d0 : String) (m0 : PyDict) (t0 : ℚ)
        (docs : List String) (mds : List PyDict) (dists : List ℚ),
        retrieve q k = ⟨d0 :: docs, m0 :: mds, t0 :: dists⟩ →
        List.Sorted (· ≤ ·) (t0 :: dists) →
        (∀ t ∈ t0 :: dists, similarity t < θ) →
        (p.query retrieve q k θ).sources = [mkEntry d0 m0 t0])
    ∧ (∀ (p : RAGPipeline) (retrieve : String → Nat → SearchResults) (q : String)
        (k : Nat) (θ : ℚ),
        retrieve q k = ⟨[], [], []⟩ →
        (p.query retrieve q k θ).sources = []
        ∧ (p.use_llm = false →
          (p.query retrieve q k θ).answer =
            "No relevant information found in the documents.")) := by
  constructor
  · intro p retrieve q k θ d0 m0 t0 docs mds dists hret hsort hbelow
    have hall : ∀ t ∈ docs.zip (mds.zip dists), similarity t.2.2 < θ := by
      intro t ht
      rcases t with ⟨a, b, c⟩
      have hc : c ∈ dists := (List.of_mem_zip (List.of_mem_zip ht).2).2
      exact hbelow c (List.mem_cons_of_mem t0 hc)
    show (selectSources θ (retrieve q k)).1 = _
    rw [hret]
    show (List.foldl (selectStep θ) ([], [])
      ((d0, (m0, t0)) :: docs.zip (mds.zip dists))).1 = _
    rw [List.foldl_cons, selectStep_keep θ ([], []) (d0, (m0, t0)) (Or.inr rfl),
      foldl_selectStep_skip θ (docs.zip (mds.zip dists)) _ (by simp) hall]
    rfl
  · intro p retrieve q k θ hret
    constructor
    · show (selectSources θ (retrieve q k)).1 = _
      rw [hret]
      rfl
    · intro huse
      have h1 : (p.query retrieve q k θ).answer =
          if p.use_llm then
            _generate_answer_with_llm p.llm_client q (selectSources θ (retrieve q k)).2
          else
            _generate_answer_without_llm q (selectSources θ (retrieve q k)).2 := rfl
      rw [h1, huse, hret]
      rfl

theorem query_below_threshold_single_source_check :
    ((⟨false, none⟩ : RAGPipeline).query rOne "q" 5 1).sources = [mkEntry "A" [] 2] :=
  query_below_threshold_single_source.1 ⟨false, none⟩ rOne "q" 5 1 "A" [] 2 [] [] []
    rfl sorted_two sim_two_below_one

/-- C4 counterexample: with an always-failing LLM collaborator and an empty
retrieved context, `query` with LLM mode enabled answers with the
training-data message while `query` with LLM mode disabled answers with the
extractive no-information message, so the two answers differ — refuting the
claim for the empty context it explicitly includes. -/
theorem llm_mode_empty_context_answers_differ :
    ((⟨true, some failLLM⟩ : RAGPipeline).query rEmpty "q" 5 (7 / 10)).answer ≠
    ((⟨false, none⟩ : RAGPipeline).query rEmpty "q" 5 (7 / 10)).answer := by decide

/-- C4 (amended): with an LLM collaborator that fails on every call, `query`
with LLM mode enabled returns exactly the answer of `query` with LLM mode
disabled whenever the retrieved context is non-empty; with an empty context
it returns the fixed training-data message without consulting the LLM.  In
both cases the failure is absorbed inside `query` and never propagated. -/
theorem llm_failure_falls_back :
    ∀ (llm : LLMClient) (retrieve : String → Nat → SearchResults) (q : String)
      (k : Nat) (θ : ℚ),
      (∀ s u, ∃ e, llm s u = .error e) →
      ((selectSources θ (retrieve q k)).2 ≠ [] →
        ((⟨true, some llm⟩ : RAGPipeline).query retrieve q k θ).answer =
        ((⟨false, none⟩ : RAGPipeline).query retrieve q k θ).answer)
      ∧ ((selectSources θ (retrieve q k)).2 = [] →
        ((⟨true, some llm⟩ : RAGPipeline).query retrieve q k θ).answer =
          "No relevant info available, retrieving answer from training data") := by
  intro llm retrieve q k θ hfail
  have hL : ((⟨true, some llm⟩ : RAGPipeline).query retrieve q k θ).answer =
      _generate_answer_with_llm (some llm) q (selectSources θ (retrieve q k)).2 := rfl
  have hR : ((⟨false, none⟩ : RAGPipeline).query retrieve q k θ).answer =
      _generate_answer_without_llm q (selectSources θ (retrieve q k)).2 := rfl
  constructor
  · intro hne
    rw [hL, hR]
    cases hctx : (selectSources θ (retrieve q k)).2 with
    | nil => exact absurd hctx hne
    | cons c0 rest =>
      obtain ⟨e, he⟩ :=
        hfail sysPrompt (userPrompt (String.intercalate "\n\n---\n\n" (c0 :: rest)) q)
      exact with_llm_error llm q c0 rest e he
  · intro hectx
    rw [hL, hectx]
    rfl

theorem llm_failure_falls_back_check :
    ((⟨true, some failLLM⟩ : RAGPipeline).query rOne "q" 5 1).answer =
    ((⟨false, none⟩ : RAGPipeline).query rOne "q" 5 1).answer :=
  (llm_failure_falls_back failLLM rOne "q" 5 1 failLLM_fails).1 ctx_rOne_ne

/-- C5: every entry of `RAGResult.sources` records the similarity
`1 - distance / 2` of its own distance; `similarity 0 = 1`; and `similarity`
is strictly decreasing in the distance. -/
theorem similarity_normalization :
    (∀ (p : RAGPipeline) (retrieve : String → Nat → SearchResults) (q : String)
        (k : Nat) (θ : ℚ), ∀ e ∈ (p.query retrieve q k θ).sources,
        e.similarity = 1 - e.distance / 2)
    ∧ similarity 0 = 1
    ∧ ∀ d1 d2 : ℚ, d1 < d2 → similarity d2 < similarity d1 := by
  refine ⟨?_, ?_, ?_⟩
  · intro p retrieve q k θ e he
    exact foldl_selectStep_sim θ (zip3 (retrieve q k)) ([], [])
      (fun e h => absurd h (List.not_mem_nil e)) e he
  · norm_num [similarity]
  · intro d1 d2 h
    unfold similarity
    linarith

theorem similarity_normalization_check :
    (mkEntry "A" [] 2).similarity = 1 - (mkEntry "A" [] 2).distance / 2
    ∧ similarity 1 < similarity 0 :=
  ⟨similarity_normalization.1 ⟨false, none⟩ rOne "q" 5 1 (mkEntry "A" [] 2) mem_query_rOne,
   similarity_normalization.2.2 0 1 zero_lt_one⟩

/-- C7 counterexample: with a single context chunk `"A"` the extractive
answer is not the chunk verbatim — the code prepends a fixed preamble. -/
theorem extractive_answer_not_verbatim :
    _generate_answer_without_llm "q" ["A"] ≠ "A" := by decide

/-- C7 (amended): with LLM mode disabled the answer is
`_generate_answer_without_llm` on the kept context; on empty context it is
the fixed no-information message; on non-empty context it is a fixed
preamble followed by the first context chunk verbatim and, when a second
chunk exists, an appended additional-information section containing the
second chunk truncated to at most 300 characters. -/
theorem extractive_answer_shape :
    (∀ (lc : Option LLMClient) (retrieve : String → Nat → SearchResults)
        (q : String) (k : Nat) (θ : ℚ),
        ((⟨false, lc⟩ : RAGPipeline).query retrieve q k θ).answer =
          _generate_answer_without_llm q (selectSources θ (retrieve q k)).2)
    ∧ (∀ q : String, _generate_answer_without_llm q [] =
        "No relevant information found in the documents.")
    ∧ (∀ q c0 : String, _generate_answer_without_llm q [c0] = answerPreamble ++ c0)
    ∧ (∀ (q c0 c1 : String) (rest : List String),
        _generate_answer_without_llm q (c0 :: c1 :: rest) =
          answerPreamble ++ c0 ++ "\n\n---\n\nAdditional relevant information:\n\n" ++
            pyTake c1 300 ++ "..."
        ∧ (pyTake c1 300).length ≤ 300) := by
  refine ⟨fun lc retrieve q k θ => rfl, fun q => rfl, fun q c0 => rfl, ?_⟩
  intro q c0 c1 rest
  refine ⟨rfl, ?_⟩
  show (c1.data.take 300).length ≤ 300
  simpa using List.length_take_le 300 c1.data

/-- C8: pipeline construction fails with the configuration error exactly when
LLM mode is requested and no LLM client is supplied; in every other
combination it returns the constructed pipeline, so no configuration error is
deferred to query time. -/
theorem init_config_error_iff :
    ∀ (u : Bool) (c : Option LLMClient),
      (RAGPipeline.init u c = .error "llm_client is required when use_llm is True" ↔
        u = true ∧ c = none)
      ∧ (RAGPipeline.init u c = .ok ⟨u, c⟩ ∨ (u = true ∧ c = none)) := by
  intro u c
  cases u <;> cases c <;> simp [RAGPipeline.init]

/-- C9: `add_chunks` fails with the count-mismatch error iff the chunk and
embedding counts differ; when they agree it submits exactly one record per
chunk/embedding pair to the index, in order, in batches of at most 100
records per call, covering all pairs. -/
theorem add_chunks_batches :
    ∀ (chunks : List Chunk) (embeddings : List (List ℚ)),
      (chunks.length ≠ embeddings.length →
        add_chunks chunks embeddings =
          .error "Number of chunks and embeddings must match")
      ∧ (∀ batches, add_chunks chunks embeddings = .ok batches →
          chunks.length = embeddings.length
          ∧ batches.flatten =
              (chunks.zip embeddings).enum.map (fun p => mkRecord p.1 p.2.1 p.2.2)
          ∧ batches.flatten.length = chunks.length
          ∧ ∀ b ∈ batches, b.length ≤ 100) := by
  intro chunks embeddings
  constructor
  · intro hne
    unfold add_chunks
    rw [if_pos hne]
  · intro batches h
    unfold add_chunks at h
    split at h
    · exact absurd h (by simp)
    · rename_i heq
      have hlen : chunks.length = embeddings.length := not_ne_iff.mp heq
      have hb : batches = batched 100
          ((chunks.zip embeddings).enum.map (fun p => mkRecord p.1 p.2.1 p.2.2)) :=
        ((Except.ok.injEq _ _).mp h).symm
      subst hb
      have hflat := batched_flatten 100
        ((chunks.zip embeddings).enum.map (fun p => mkRecord p.1 p.2.1 p.2.2))
      refine ⟨hlen, hflat, ?_, ?_⟩
      · rw [hflat]
        simp [List.length_zip, ← hlen]
      · intro b hb2
        exact batched_mem_len 100 (by norm_num) _ b hb2

set_option maxHeartbeats 1000000 in
theorem add_chunks_batches_check :
    add_chunks [] [[]] = .error "Number of chunks and embeddings must match"
    ∧ ([[mkRecord 0 ⟨"t", [], 0⟩ [0]]] : List (List VSRecord)).flatten =
        (([(⟨"t", [], 0⟩ : Chunk)].zip [[(0 : ℚ)]]).enum.map
          (fun p => mkRecord p.1 p.2.1 p.2.2)) :=
  ⟨(add_chunks_batches [] [[]]).1 (by decide),
   ((add_chunks_batches [⟨"t", [], 0⟩] [[0]]).2 [[mkRecord 0 ⟨"t", [], 0⟩ [0]]] rfl).2.1⟩

/-- C10: `batch_query` returns exactly one result per query, in the input
order, and each result equals `query` at that query with the fixed default
similarity threshold `0.7` — no per-batch override exists. -/
theorem batch_query_order :
    ∀ (p : RAGPipeline) (retrieve : String → Nat → SearchResults)
      (queries : List String) (k : Nat),
      p.batch_query retrieve queries k =
        queries.map (fun q => p.query retrieve q k (7 / 10))
      ∧ (p.batch_query retrieve queries k).length = queries.length := by
  intro p retrieve queries k
  have h : p.batch_query retrieve queries k =
      [] ++ queries.map (fun q => p.query retrieve q k (7 / 10)) :=
    foldl_append_map (fun q => p.query retrieve q k (7 / 10)) queries []
  rw [List.nil_append] at h
  exact ⟨h, by rw [h, List.length_map]⟩

end RAGSE
